import Mathlib

/-!
Verification of the streamlit_fx repository.  The definitions below are a
shallow embedding of the diff-and-reconcile save handlers of `app.py` and
`pages/1_Clients.py`, of the entity store and forecast repository
(`crud.py`, `schemas.py`, with the constraints declared in `setup_db.py`),
and of the HTTP error translation of `fx_api.py`.  The theorems settle the
spec claims against these definitions.
-/

/-- Calendar date (year, month, day).  The embedded code only ever compares
`dt` values for equality, so any type with decidable equality is faithful. -/
structure Date where
  year : Nat
  month : Nat
  day : Nat
  deriving DecidableEq, Repr

/-- Denormalized forecast detail row as returned by `GET /forecasts/`
(`schemas.ForecastDetail`, produced by `crud.get_forecasts`): the forecast id,
the four joined display names, the date and the editable amount. -/
structure ForecastDetail where
  forecast_id : Nat
  business_vertical_name : String
  business_unit_name : String
  client_name : String
  work_type_name : String
  dt : Date
  forecast_amount : Int
  deriving DecidableEq, Repr

/-- Merge key of the save-changes diff in `app.py` (lines 213-222): the
`merge` call joins on `forecast_id` plus every displayed column except the
editable amount. -/
structure DetailKey where
  forecast_id : Nat
  business_vertical_name : String
  business_unit_name : String
  client_name : String
  work_type_name : String
  dt : Date
  deriving DecidableEq, Repr

/-- Projection of a detail row to the six merge-key columns. -/
def detailKey (r : ForecastDetail) : DetailKey :=
  ⟨r.forecast_id, r.business_vertical_name, r.business_unit_name,
   r.client_name, r.work_type_name, r.dt⟩

/-- Operation dispatched by the forecast save loop of `app.py`: a `PUT`
whose payload carries only the new amount, or a `DELETE` of the row id.
There is no create constructor: the save loop never issues a create. -/
inductive ForecastOp where
  | update (forecast_id : Nat) (forecast_amount : Int)
  | delete (forecast_id : Nat)
  deriving DecidableEq, Repr

/-- Row id an operation addresses. -/
def ForecastOp.opId : ForecastOp → Nat
  | .update i _ => i
  | .delete i => i

/-- True exactly on the update constructor. -/
def ForecastOp.isUpdate : ForecastOp → Bool
  | .update _ _ => true
  | .delete _ => false

/-- Rows of the outer merge of `original` against `edited` that land in the
`_merge == both` group: every pair of an original row and an edited row that
agree on all six key columns.  Pandas pairs the members of equal key groups
by cross product; real snapshots have unique keys (the id is a primary key),
so the group has at most one pair per original row.  The order of the merged
frame may differ from this list, which affects neither the set of emitted
operations nor the updates-before-deletes dispatch order proved below. -/
def mergeBoth (original edited : List ForecastDetail) :
    List (ForecastDetail × ForecastDetail) :=
  original.flatMap fun o =>
    (edited.filter fun e => decide (detailKey e = detailKey o)).map fun e => (o, e)

/-- Update pass of the save handler (`app.py` lines 224-241): every `both`
merge row whose original and edited amounts differ becomes a `PUT` carrying
only the new amount. -/
def forecastUpdates (original edited : List ForecastDetail) : List ForecastOp :=
  (mergeBoth original edited).filterMap fun oe =>
    if oe.1.forecast_amount = oe.2.forecast_amount then none
    else some (.update oe.1.forecast_id oe.2.forecast_amount)

/-- Deletion pass of the save handler (`app.py` lines 243-255): every
original row whose key has no partner in `edited` (`_merge == left_only`)
becomes a `DELETE`.  Rows only in `edited` (`right_only`) are never
touched. -/
def forecastDeletes (original edited : List ForecastDetail) : List ForecastOp :=
  (original.filter fun o =>
      !(edited.any fun e => decide (detailKey e = detailKey o))).map fun o =>
    .delete o.forecast_id

/-- Full reconciliation run on save: the update loop runs to completion
before the deletion loop starts, so every update is dispatched before any
delete. -/
def reconcileForecasts (original edited : List ForecastDetail) : List ForecastOp :=
  forecastUpdates original edited ++ forecastDeletes original edited

/-- Final banner of the save handler (`app.py` lines 256-262): a success
message carrying the two success counters, or the `No changes detected.`
info message. -/
inductive BatchMessage where
  | saved (update_count delete_count : Nat)
  | noChanges
  deriving DecidableEq, Repr

/-- Success counters of the two dispatch loops: `update_count` and
`delete_count` each advance only on a 200 response, modelled by
`outcome op = true`. -/
def successCounts (ops : List ForecastOp) (outcome : ForecastOp → Bool) :
    Nat × Nat :=
  ((ops.filter fun op => op.isUpdate && outcome op).length,
   (ops.filter fun op => !op.isUpdate && outcome op).length)

/-- Ids reported through `handle_api_error` or the request-exception branch:
one failure report, naming the row id, per operation whose response is not a
success. -/
def failureIds (ops : List ForecastOp) (outcome : ForecastOp → Bool) : List Nat :=
  (ops.filter fun op => !(outcome op)).map ForecastOp.opId

/-- Banner selection of `app.py` lines 257-262: the success banner appears
when at least one operation succeeded, otherwise the handler falls through
to `No changes detected.` regardless of how many operations were dispatched
and failed. -/
def finalMessage (ops : List ForecastOp) (outcome : ForecastOp → Bool) :
    BatchMessage :=
  let c := successCounts ops outcome
  if 0 < c.1 ∨ 0 < c.2 then .saved c.1 c.2 else .noChanges

/-- Client row as served by `GET /clients/` (`schemas.Client`):
`client_active` is typed `bool | None` and `client_end_date` `date | None`;
a pandas `NaT` end date is normalized to `None` before comparison
(`1_Clients.py` lines 144-146), which the `Option` type models directly. -/
structure ClientRow where
  client_id : Nat
  client_name : String
  client_active : Option Bool
  client_start_date : Date
  client_end_date : Option Date
  business_unit_id : Nat
  deriving DecidableEq, Repr

/-- Non-index columns of a client row: `set_index(client_id)` removes the id
from `row.to_dict()`, so the field-by-field comparison and the `PUT` payload
cover exactly these five fields. -/
structure ClientFields where
  client_name : String
  client_active : Option Bool
  client_start_date : Date
  client_end_date : Option Date
  business_unit_id : Nat
  deriving DecidableEq, Repr

/-- Projection of a client row to its mutable (non-index) fields. -/
def clientFields (r : ClientRow) : ClientFields :=
  ⟨r.client_name, r.client_active, r.client_start_date, r.client_end_date,
   r.business_unit_id⟩

/-- Operation dispatched by the client save loop: a full-field `PUT` or a
`DELETE`.  As for forecasts, there is no create constructor. -/
inductive ClientOp where
  | update (client_id : Nat) (fields : ClientFields)
  | delete (client_id : Nat)
  deriving DecidableEq, Repr

/-- Row id a client operation addresses. -/
def ClientOp.opId : ClientOp → Nat
  | .update i _ => i
  | .delete i => i

/-- True exactly on the update constructor. -/
def ClientOp.isUpdate : ClientOp → Bool
  | .update _ _ => true
  | .delete _ => false

/-- Update pass of `Save Client Changes` (`1_Clients.py` lines 132-165):
each edited row whose id is absent from the original index is skipped (with
a warning); a present row is compared field-by-field against
`original_df.loc[id]` and, when any field differs, `PUT` with the full
edited field set. -/
def clientUpdates (original edited : List ClientRow) : List ClientOp :=
  edited.filterMap fun e =>
    match original.find? fun o => decide (o.client_id = e.client_id) with
    | none => none
    | some o =>
      if clientFields e = clientFields o then none
      else some (.update e.client_id (clientFields e))

/-- Warnings of the update pass (`1_Clients.py` lines 133-136): one per
edited row whose id does not appear in the original snapshot. -/
def clientWarnings (original edited : List ClientRow) : List ClientRow :=
  edited.filter fun e =>
    !(original.any fun o => decide (o.client_id = e.client_id))

/-- Deletion pass (`1_Clients.py` lines 167-177): every id in the original
index that is missing from the edited index. -/
def clientDeletes (original edited : List ClientRow) : List ClientOp :=
  (original.filter fun o =>
      !(edited.any fun e => decide (e.client_id = o.client_id))).map fun o =>
    .delete o.client_id

/-- Full client reconciliation run: updates are dispatched before
deletes. -/
def reconcileClients (original edited : List ClientRow) : List ClientOp :=
  clientUpdates original edited ++ clientDeletes original edited

/-- Domain error kinds of the store boundary (spec section 7), produced by
translating `UniqueViolation` and `ForeignKeyViolation` and missing-row
results in `fx_api.py`. -/
inductive DomainError where
  | duplicateName
  | duplicateForecast
  | invalidReference
  | referencedByChild
  | notFound
  deriving DecidableEq, Repr

/-- Row of one of the five lookup tables (`setup_db.py`): a serial primary
id, the `UNIQUE NOT NULL` name column, and the kind-specific remaining
columns (`payload`, e.g. the vertical FK of a business unit). -/
structure LookupRow (α : Type) where
  id : Nat
  name : String
  payload : α
  deriving DecidableEq, Repr

/-- Lookup table: its rows plus the next value of the `SERIAL` id
sequence. -/
structure LookupTable (α : Type) where
  rows : List (LookupRow α)
  nextId : Nat
  deriving DecidableEq, Repr

/-- INSERT of the `crud.create_*` lookup functions (uniform across the five
kinds, e.g. `create_business_vertical`) against a `UNIQUE` name column: a
duplicate name raises `UniqueViolation`, which the endpoint maps to the
duplicate-name 400 (`fx_api.py`), and the failed statement aborts the
transaction, which is rolled back when the borrowed connection is returned
to the pool, leaving the table unchanged; otherwise the row is inserted
with the next serial id and committed. -/
def createLookup {α : Type} (t : LookupTable α) (nm : String) (payload : α) :
    Except DomainError (LookupRow α) × LookupTable α :=
  if t.rows.any fun r => decide (r.name = nm) then
    (.error .duplicateName, t)
  else
    let row : LookupRow α := ⟨t.nextId, nm, payload⟩
    (.ok row, ⟨t.rows ++ [row], t.nextId + 1⟩)

/-- SELECT by primary id of the `crud.get_*` lookup functions: the first row
carrying the id, if any. -/
def getLookup {α : Type} (t : LookupTable α) (i : Nat) : Option (LookupRow α) :=
  t.rows.find? fun r => decide (r.id = i)

/-- Persisted forecast row (`setup_db.py` lines 61-71): serial id, optional
name, three `NOT NULL` foreign keys, date, and an `INT NOT NULL` amount
that carries no non-negativity check. -/
structure ForecastRow where
  forecast_id : Nat
  forecast_name : Option String
  client_id : Nat
  business_unit_id : Nat
  work_type_id : Nat
  dt : Date
  forecast_amount : Int
  deriving DecidableEq, Repr

/-- Request body of `POST /forecasts/` (`schemas.ForecastCreate`): a plain
`int` amount with no lower bound, an optional name, the date and the three
foreign keys. -/
structure ForecastCreate where
  client_id : Nat
  business_unit_id : Nat
  work_type_id : Nat
  dt : Date
  forecast_amount : Int
  forecast_name : Option String
  deriving DecidableEq, Repr

/-- Request body of `PUT /forecasts/{id}` (`schemas.ForecastUpdate`,
`schemas.py` lines 99-101): by construction the one and only field is the
new amount, so no other column can be addressed by an update request. -/
structure ForecastUpdate where
  forecast_amount : Int
  deriving DecidableEq, Repr

/-- Business-unit row (`setup_db.py`). -/
structure BusinessUnitRow where
  business_unit_id : Nat
  business_unit_name : String
  business_vertical_id : Nat
  deriving DecidableEq, Repr

/-- Work-type row (`setup_db.py`). -/
structure WorkTypeRow where
  work_type_id : Nat
  work_type_name : String
  work_type_origin_type_id : Nat
  deriving DecidableEq, Repr

/-- The tables `POST /forecasts/` touches: the three referenced lookup
tables and the forecasts fact table with its serial sequence. -/
structure Db where
  clients : List ClientRow
  business_units : List BusinessUnitRow
  work_types : List WorkTypeRow
  forecasts : List ForecastRow
  next_forecast_id : Nat
  deriving Repr

/-- INSERT of `crud.create_forecast` under the constraints of
`setup_db.py`: each of the three foreign keys is checked independently
against its own referenced table (`ForeignKeyViolation`, surfaced by the
endpoint as the invalid-reference 404), the four-column `unique_forecast`
constraint rejects a second row sharing
`(business_unit_id, client_id, work_type_id, dt)` (`UniqueViolation`,
surfaced as the duplicate 400), and no check constrains `forecast_amount`
or relates the requested `business_unit_id` to the `business_unit_id` of
the referenced client.  A failed insert aborts the transaction and leaves
the database unchanged. -/
def create_forecast (db : Db) (f : ForecastCreate) :
    Except DomainError ForecastRow × Db :=
  if !(db.clients.any fun c => decide (c.client_id = f.client_id)) then
    (.error .invalidReference, db)
  else if !(db.business_units.any fun u =>
      decide (u.business_unit_id = f.business_unit_id)) then
    (.error .invalidReference, db)
  else if !(db.work_types.any fun w =>
      decide (w.work_type_id = f.work_type_id)) then
    (.error .invalidReference, db)
  else if db.forecasts.any fun r =>
      decide (r.business_unit_id = f.business_unit_id ∧
        r.client_id = f.client_id ∧ r.work_type_id = f.work_type_id ∧
        r.dt = f.dt) then
    (.error .duplicateForecast, db)
  else
    let row : ForecastRow := ⟨db.next_forecast_id, f.forecast_name,
      f.client_id, f.business_unit_id, f.work_type_id, f.dt,
      f.forecast_amount⟩
    (.ok row, { db with forecasts := db.forecasts ++ [row],
                        next_forecast_id := db.next_forecast_id + 1 })

/-- True when `create_forecast` returns a row rather than an error. -/
def createSucceeds (db : Db) (f : ForecastCreate) : Bool :=
  match (create_forecast db f).1 with
  | .ok _ => true
  | .error _ => false

/-- UPDATE of `crud.update_forecast_amount` (`crud.py` lines 281-289): sets
`forecast_amount` on every row matching the id (at most one in a real
table, since `forecast_id` is the primary key) and returns the updated row,
or `none` (surfaced by the endpoint as 404) when no row matched. -/
def update_forecast_amount (forecasts : List ForecastRow) (forecast_id : Nat)
    (u : ForecastUpdate) : Option ForecastRow × List ForecastRow :=
  ((forecasts.find? fun r => decide (r.forecast_id = forecast_id)).map
      fun r => { r with forecast_amount := u.forecast_amount },
   forecasts.map fun r =>
     if r.forecast_id = forecast_id then
       { r with forecast_amount := u.forecast_amount }
     else r)

/-- Endpoints of `fx_api.py` that translate at least one database error or
missing-row result into an HTTP status. -/
inductive Endpoint where
  | createVertical | readVertical | updateVertical | deleteVertical
  | createUnit | readUnit | updateUnit | deleteUnit
  | createClient | readClient | updateClient | deleteClient
  | createWorkType | updateWorkType | deleteWorkType
  | createOriginType | updateOriginType | deleteOriginType
  | createForecast | updateForecast | deleteForecast
  deriving DecidableEq, Fintype, Repr

/-- Domain error kinds the endpoints signal; `duplicate` covers both
`DuplicateName` and `DuplicateForecast` of the taxonomy. -/
inductive ErrKind where
  | duplicate | invalidReference | referencedByChild | notFound
  deriving DecidableEq, Fintype, Repr

/-- HTTP status code each endpoint attaches to each error kind, transcribed
from the `HTTPException` constructors of `fx_api.py`; `none` when the
endpoint has no handler for that kind.  `read_unit` (line 99) and
`delete_client` (line 178) write `status_code=44` for their missing-row
case, unlike the 404 used everywhere else. -/
def errorStatus : Endpoint → ErrKind → Option Nat
  | .createVertical, .duplicate => some 400
  | .readVertical, .notFound => some 404
  | .updateVertical, .notFound => some 404
  | .updateVertical, .duplicate => some 400
  | .deleteVertical, .notFound => some 404
  | .deleteVertical, .referencedByChild => some 400
  | .createUnit, .duplicate => some 400
  | .createUnit, .invalidReference => some 404
  | .readUnit, .notFound => some 44
  | .updateUnit, .notFound => some 404
  | .updateUnit, .duplicate => some 400
  | .updateUnit, .invalidReference => some 404
  | .deleteUnit, .notFound => some 404
  | .deleteUnit, .referencedByChild => some 400
  | .createClient, .duplicate => some 400
  | .createClient, .invalidReference => some 404
  | .readClient, .notFound => some 404
  | .updateClient, .notFound => some 404
  | .updateClient, .duplicate => some 400
  | .updateClient, .invalidReference => some 404
  | .deleteClient, .notFound => some 44
  | .deleteClient, .referencedByChild => some 400
  | .createWorkType, .duplicate => some 400
  | .createWorkType, .invalidReference => some 404
  | .updateWorkType, .notFound => some 404
  | .updateWorkType, .duplicate => some 400
  | .updateWorkType, .invalidReference => some 404
  | .deleteWorkType, .notFound => some 404
  | .deleteWorkType, .referencedByChild => some 400
  | .createOriginType, .duplicate => some 400
  | .updateOriginType, .notFound => some 404
  | .updateOriginType, .duplicate => some 400
  | .deleteOriginType, .notFound => some 404
  | .deleteOriginType, .referencedByChild => some 400
  | .createForecast, .duplicate => some 400
  | .createForecast, .invalidReference => some 404
  | .updateForecast, .notFound => some 404
  | .deleteForecast, .notFound => some 404
  | _, _ => none

/-- Concrete detail row sharing the sample display names, with a chosen id
and amount. -/
def sampleDetailRow (i : Nat) (a : Int) : ForecastDetail :=
  ⟨i, "Technology", "Consulting Services", "Acme Corp", "Consulting",
   ⟨2025, 11, 1⟩, a⟩

/-- Original row of the display-rename scenario: id 1, client name
`Acme`. -/
def renamedOriginal : ForecastDetail :=
  ⟨1, "Technology", "Consulting Services", "Acme", "Consulting",
   ⟨2025, 11, 1⟩, 100⟩

/-- Edited row of the display-rename scenario: same id and amount as
`renamedOriginal`, client name changed to `Acme Corp`. -/
def renamedEdited : ForecastDetail :=
  { renamedOriginal with client_name := "Acme Corp" }

/-- Frame relation of the amount update: all identity fields agree, and the
amount of the new row is the requested amount on the matching id and the
old amount elsewhere. -/
def frameAgrees (forecast_id : Nat) (u : ForecastUpdate)
    (r r' : ForecastRow) : Prop :=
  r'.forecast_id = r.forecast_id ∧ r'.forecast_name = r.forecast_name ∧
  r'.client_id = r.client_id ∧ r'.business_unit_id = r.business_unit_id ∧
  r'.work_type_id = r.work_type_id ∧ r'.dt = r.dt ∧
  r'.forecast_amount =
    (if r.forecast_id = forecast_id then u.forecast_amount
     else r.forecast_amount)

/-- Concrete store whose only client (id 1) belongs to business unit 1,
with a second business unit 2 and one work type. -/
def mismatchDb : Db :=
  { clients := [⟨1, "Acme Corp", some true, ⟨2023, 1, 1⟩, none, 1⟩],
    business_units := [⟨1, "Consulting Services", 1⟩, ⟨2, "Managed Services", 1⟩],
    work_types := [⟨1, "Consulting", 2⟩],
    forecasts := [],
    next_forecast_id := 1 }

/-- Create request for client 1 naming business unit 2, which exists but is
not the unit owning client 1. -/
def mismatchCreate : ForecastCreate := ⟨1, 2, 1, ⟨2025, 11, 1⟩, 100, none⟩

/-- Create request carrying the negative amount -5 with otherwise valid
references. -/
def negativeCreate : ForecastCreate := ⟨1, 1, 1, ⟨2025, 11, 1⟩, -5, none⟩

theorem mem_forecastUpdates {original edited : List ForecastDetail}
    {op : ForecastOp} :
    op ∈ forecastUpdates original edited ↔
      ∃ o e, o ∈ original ∧ e ∈ edited ∧ detailKey e = detailKey o ∧
        ¬ o.forecast_amount = e.forecast_amount ∧
        op = .update o.forecast_id e.forecast_amount := by
  constructor
  · intro h
    simp only [forecastUpdates, List.mem_filterMap] at h
    obtain ⟨oe, hmem, hf⟩ := h
    simp only [mergeBoth, List.mem_flatMap, List.mem_map, List.mem_filter,
      decide_eq_true_eq] at hmem
    obtain ⟨o, ho, e, ⟨he, hk⟩, heq⟩ := hmem
    subst heq
    by_cases ham : o.forecast_amount = e.forecast_amount
    · simp [ham] at hf
    · rw [if_neg ham] at hf
      exact ⟨o, e, ho, he, hk, ham, (Option.some.injEq _ _ ▸ hf).symm⟩
  · rintro ⟨o, e, ho, he, hk, hne, rfl⟩
    simp only [forecastUpdates, List.mem_filterMap]
    refine ⟨(o, e), ?_, by simp [hne]⟩
    simp only [mergeBoth, List.mem_flatMap, List.mem_map, List.mem_filter,
      decide_eq_true_eq]
    exact ⟨o, ho, e, ⟨he, hk⟩, rfl⟩

theorem mem_forecastDeletes {original edited : List ForecastDetail}
    {op : ForecastOp} :
    op ∈ forecastDeletes original edited ↔
      ∃ o, o ∈ original ∧ (∀ e ∈ edited, ¬ detailKey e = detailKey o) ∧
        op = .delete o.forecast_id := by
  simp only [forecastDeletes, List.mem_map, List.mem_filter,
    Bool.not_eq_true', List.any_eq_false, decide_eq_true_eq]
  constructor
  · rintro ⟨o, ⟨ho, hall⟩, rfl⟩
    exact ⟨o, ho, hall, rfl⟩
  · rintro ⟨o, ho, hall, rfl⟩
    exact ⟨o, ⟨ho, hall⟩, rfl⟩

theorem forecastUpdates_isUpdate {original edited : List ForecastDetail} :
    ∀ op ∈ forecastUpdates original edited, op.isUpdate = true := by
  intro op hop
  obtain ⟨o, e, -, -, -, -, rfl⟩ := mem_forecastUpdates.mp hop
  rfl

theorem forecastDeletes_isDelete {original edited : List ForecastDetail} :
    ∀ op ∈ forecastDeletes original edited, op.isUpdate = false := by
  intro op hop
  obtain ⟨o, -, -, rfl⟩ := mem_forecastDeletes.mp hop
  rfl

theorem nodup_key_of_nodup_id {l : List ForecastDetail}
    (h : (l.map ForecastDetail.forecast_id).Nodup) :
    (l.map detailKey).Nodup := by
  have heq : l.map ForecastDetail.forecast_id =
      (l.map detailKey).map DetailKey.forecast_id := by
    rw [List.map_map]; rfl
  rw [heq] at h
  exact h.of_map

theorem mem_clientDeletes {original edited : List ClientRow} {op : ClientOp} :
    op ∈ clientDeletes original edited ↔
      ∃ o, o ∈ original ∧ (∀ e ∈ edited, ¬ e.client_id = o.client_id) ∧
        op = .delete o.client_id := by
  simp only [clientDeletes, List.mem_map, List.mem_filter,
    Bool.not_eq_true', List.any_eq_false, decide_eq_true_eq]
  constructor
  · rintro ⟨o, ⟨ho, hall⟩, rfl⟩
    exact ⟨o, ho, hall, rfl⟩
  · rintro ⟨o, ho, hall, rfl⟩
    exact ⟨o, ⟨ho, hall⟩, rfl⟩

theorem clientUpdates_isUpdate {original edited : List ClientRow} :
    ∀ op ∈ clientUpdates original edited, op.isUpdate = true := by
  intro op hop
  simp only [clientUpdates, List.mem_filterMap] at hop
  obtain ⟨e, -, hf⟩ := hop
  split at hf
  · cases hf
  · split at hf
    · cases hf
    · cases hf
      rfl

/-- Claim C1: for every pair of snapshots of forecast detail rows, the save
reconciliation of `app.py` emits an amount-only update for each row matched
in both snapshots whose amount differs, a delete for each original row with
no partner in the edited snapshot, and nothing for unchanged rows; updates
are dispatched before deletes; and on the original rows with amounts
100, 200, 300 (ids 1, 2, 3) edited to keep id 1 at 150 and id 3 at 300 and
drop id 2, it produces exactly update 1 to 150 followed by delete 2.
Rows are matched through the six merge-key columns of the source; the
uniqueness hypotheses state that ids (hence keys) are unique in each
snapshot, which holds for every snapshot the repository serves because
`forecast_id` is the primary key. -/
theorem reconcile_forecasts_matches_spec
    (original edited : List ForecastDetail)
    (hids : (original.map ForecastDetail.forecast_id).Nodup)
    (hkeys : (edited.map detailKey).Nodup) :
    (∀ o ∈ original, ∀ e ∈ edited, detailKey e = detailKey o →
        ¬ o.forecast_amount = e.forecast_amount →
        ForecastOp.update o.forecast_id e.forecast_amount ∈
          reconcileForecasts original edited) ∧
    (∀ o ∈ original, (∀ e ∈ edited, ¬ detailKey e = detailKey o) →
        ForecastOp.delete o.forecast_id ∈ reconcileForecasts original edited) ∧
    (∀ o ∈ original, ∀ e ∈ edited, detailKey e = detailKey o →
        o.forecast_amount = e.forecast_amount →
        ∀ op ∈ reconcileForecasts original edited,
          ¬ op.opId = o.forecast_id) ∧
    (∃ us ds, reconcileForecasts original edited = us ++ ds ∧
        (∀ op ∈ us, op.isUpdate = true) ∧
        (∀ op ∈ ds, op.isUpdate = false)) ∧
    reconcileForecasts
        [sampleDetailRow 1 100, sampleDetailRow 2 200, sampleDetailRow 3 300]
        [sampleDetailRow 1 150, sampleDetailRow 3 300] =
      [.update 1 150, .delete 2] := by
  refine ⟨?_, ?_, ?_, ?_, by decide⟩
  · intro o ho e he hk hne
    exact List.mem_append_left _
      (mem_forecastUpdates.mpr ⟨o, e, ho, he, hk, hne, rfl⟩)
  · intro o ho hnone
    exact List.mem_append_right _
      (mem_forecastDeletes.mpr ⟨o, ho, hnone, rfl⟩)
  · intro o ho e he hk ham op hop hid
    rcases List.mem_append.mp hop with h | h
    · obtain ⟨o', e', ho', he', hk', hne', rfl⟩ := mem_forecastUpdates.mp h
      simp only [ForecastOp.opId] at hid
      have ho'' : o' = o := List.inj_on_of_nodup_map hids ho' ho hid
      subst ho''
      have he'' : e' = e :=
        List.inj_on_of_nodup_map hkeys he' he (hk'.trans hk.symm)
      subst he''
      exact hne' ham
    · obtain ⟨o', ho', hnone, rfl⟩ := mem_forecastDeletes.mp h
      simp only [ForecastOp.opId] at hid
      have ho'' : o' = o := List.inj_on_of_nodup_map hids ho' ho hid
      subst ho''
      exact hnone e he hk
  · exact ⟨forecastUpdates original edited, forecastDeletes original edited,
      rfl, forecastUpdates_isUpdate, forecastDeletes_isDelete⟩

/-- Witness for C1 at the concrete snapshots of the claim. -/
theorem reconcile_forecasts_matches_spec_witness :
    ForecastOp.update 1 150 ∈
      reconcileForecasts
        [sampleDetailRow 1 100, sampleDetailRow 2 200, sampleDetailRow 3 300]
        [sampleDetailRow 1 150, sampleDetailRow 3 300] :=
  (reconcile_forecasts_matches_spec
      [sampleDetailRow 1 100, sampleDetailRow 2 200, sampleDetailRow 3 300]
      [sampleDetailRow 1 150, sampleDetailRow 3 300]
      (by decide) (by decide)).1
    (sampleDetailRow 1 100) (by decide) (sampleDetailRow 1 150) (by decide)
    (by decide) (by decide)

/-- Claim C2, counterexample: two single-row snapshots whose rows share the
primary id 1 and every field except the display column `client_name`.  The
engine of `app.py` merges on the id plus all display columns, so the rows do
not correspond: the run emits a delete for id 1 instead of matching the
rows, refuting the claim that correspondence holds if and only if the
primary ids are equal. -/
theorem display_rename_classified_as_delete :
    renamedEdited.forecast_id = renamedOriginal.forecast_id ∧
    renamedEdited.forecast_amount = renamedOriginal.forecast_amount ∧
    reconcileForecasts [renamedOriginal] [renamedEdited] =
      [ForecastOp.delete 1] := by decide

/-- Claim C2, amended: in the forecast editor a delete is emitted for an
original row exactly when no edited row agrees with it on the full six-part
merge key (primary id plus the four display names and the date), so a row
that keeps its id but differs in a display column is classified as a delete
plus an ignored new row; only in the lookup-entity editors
(`1_Clients.py` and the near-identical pages) do rows correspond by primary
id alone, with a row differing in any mutable field still matched and
diffed as an update. -/
theorem row_correspondence_keys
    (original edited : List ForecastDetail)
    (hids : (original.map ForecastDetail.forecast_id).Nodup)
    (clOrig clEd : List ClientRow)
    (hcids : (clOrig.map ClientRow.client_id).Nodup) :
    (∀ o ∈ original,
        (ForecastOp.delete o.forecast_id ∈ reconcileForecasts original edited ↔
          ∀ e ∈ edited, ¬ detailKey e = detailKey o)) ∧
    (∀ o ∈ clOrig,
        (ClientOp.delete o.client_id ∈ reconcileClients clOrig clEd ↔
          ∀ e ∈ clEd, ¬ e.client_id = o.client_id)) ∧
    (∀ e ∈ clEd, ∀ o ∈ clOrig, o.client_id = e.client_id →
        ¬ clientFields e = clientFields o →
        ClientOp.update e.client_id (clientFields e) ∈
          reconcileClients clOrig clEd) := by
  refine ⟨?_, ?_, ?_⟩
  · intro o ho
    constructor
    · intro h
      rcases List.mem_append.mp h with h | h
      · have hup := forecastUpdates_isUpdate _ h
        simp [ForecastOp.isUpdate] at hup
      · obtain ⟨o', ho', hnone, heq⟩ := mem_forecastDeletes.mp h
        have hid : o.forecast_id = o'.forecast_id := by
          injection heq
        have ho'' : o' = o := List.inj_on_of_nodup_map hids ho' ho hid.symm
        subst ho''
        exact hnone
    · intro hnone
      exact List.mem_append_right _
        (mem_forecastDeletes.mpr ⟨o, ho, hnone, rfl⟩)
  · intro o ho
    constructor
    · intro h
      rcases List.mem_append.mp h with h | h
      · have hup := clientUpdates_isUpdate _ h
        simp [ClientOp.isUpdate] at hup
      · obtain ⟨o', ho', hnone, heq⟩ := mem_clientDeletes.mp h
        have hid : o.client_id = o'.client_id := by
          injection heq
        have ho'' : o' = o := List.inj_on_of_nodup_map hcids ho' ho hid.symm
        subst ho''
        exact hnone
    · intro hnone
      exact List.mem_append_right _
        (mem_clientDeletes.mpr ⟨o, ho, hnone, rfl⟩)
  · intro e he o ho hid hfe
    refine List.mem_append_left _ ?_
    simp only [clientUpdates, List.mem_filterMap]
    refine ⟨e, he, ?_⟩
    have hsome : (clOrig.find? fun o' => decide (o'.client_id = e.client_id))
        = some o := by
      rcases hf : clOrig.find? fun o' => decide (o'.client_id = e.client_id)
        with _ | o'
      · exact absurd (by simpa using hid)
          (by simpa using List.find?_eq_none.mp hf o ho)
      · have hmem := List.mem_of_find?_eq_some hf
        have hpred : o'.client_id = e.client_id := by
          simpa using List.find?_some hf
        have : o' = o :=
          List.inj_on_of_nodup_map hcids hmem ho (hpred.trans hid.symm)
        exact this ▸ hf
    rw [hsome]
    simp [hfe]

/-- Witness for C2 (amended) at concrete client snapshots. -/
theorem row_correspondence_keys_witness :
    ClientOp.update 1
        (clientFields ⟨1, "Acme Corporation", some true, ⟨2023, 1, 1⟩, none, 1⟩) ∈
      reconcileClients [⟨1, "Acme Corp", some true, ⟨2023, 1, 1⟩, none, 1⟩]
        [⟨1, "Acme Corporation", some true, ⟨2023, 1, 1⟩, none, 1⟩] :=
  (row_correspondence_keys [] [] (by decide)
      [⟨1, "Acme Corp", some true, ⟨2023, 1, 1⟩, none, 1⟩]
      [⟨1, "Acme Corporation", some true, ⟨2023, 1, 1⟩, none, 1⟩]
      (by decide)).2.2
    ⟨1, "Acme Corporation", some true, ⟨2023, 1, 1⟩, none, 1⟩ (by decide)
    ⟨1, "Acme Corp", some true, ⟨2023, 1, 1⟩, none, 1⟩ (by decide)
    (by decide) (by decide)

theorem flatMap_congr_mem {α β : Type} {l : List α} {f g : α → List β}
    (h : ∀ a ∈ l, f a = g a) : l.flatMap f = l.flatMap g := by
  induction l with
  | nil => rfl
  | cons a l ih =>
    rw [List.flatMap_cons, List.flatMap_cons, h a (List.mem_cons_self a l),
      ih fun x hx => h x (List.mem_cons_of_mem a hx)]

theorem mergeBoth_append_fresh {original edited newRows : List ForecastDetail}
    (hf : ∀ n ∈ newRows, ∀ o ∈ original, ¬ detailKey n = detailKey o) :
    mergeBoth original (edited ++ newRows) = mergeBoth original edited := by
  refine flatMap_congr_mem fun o ho => ?_
  have hnil : newRows.filter (fun e => decide (detailKey e = detailKey o)) = [] :=
    List.filter_eq_nil_iff.mpr fun n hn => by simp [hf n hn o ho]
  rw [List.filter_append, hnil, List.append_nil]

/-- Claim C3: appending rows whose identity key is absent from the original
snapshot to the edited snapshot changes nothing about the emitted
operations, in both the forecast engine and the client engine — the new
rows produce zero operations (the operation types have no create
constructor at all), and the client engine surfaces one warning per such
row. -/
theorem appended_rows_emit_no_ops
    (original edited newRows : List ForecastDetail)
    (clOrig clEd clNew : List ClientRow)
    (hf : ∀ n ∈ newRows, ∀ o ∈ original, ¬ detailKey n = detailKey o)
    (hc : ∀ n ∈ clNew, ∀ o ∈ clOrig, ¬ n.client_id = o.client_id) :
    reconcileForecasts original (edited ++ newRows) =
      reconcileForecasts original edited ∧
    reconcileClients clOrig (clEd ++ clNew) = reconcileClients clOrig clEd ∧
    clientWarnings clOrig (clEd ++ clNew) =
      clientWarnings clOrig clEd ++ clNew := by
  refine ⟨?_, ?_, ?_⟩
  · unfold reconcileForecasts forecastUpdates forecastDeletes
    rw [mergeBoth_append_fresh hf]
    congr 1
    congr 1
    refine List.filter_congr fun o ho => ?_
    have hfalse : (newRows.any fun e => decide (detailKey e = detailKey o))
        = false :=
      List.any_eq_false.mpr fun n hn => by simp [hf n hn o ho]
    rw [List.any_append, hfalse, Bool.or_false]
  · unfold reconcileClients clientUpdates clientDeletes
    rw [List.filterMap_append]
    have hnil : (clNew.filterMap fun e =>
        match clOrig.find? fun o => decide (o.client_id = e.client_id) with
        | none => none
        | some o =>
          if clientFields e = clientFields o then none
          else some (ClientOp.update e.client_id (clientFields e))) = [] := by
      refine List.filterMap_eq_nil_iff.mpr fun n hn => ?_
      rw [List.find?_eq_none.mpr fun o ho => by
        simp only [decide_eq_true_eq]
        exact fun h => hc n hn o ho h.symm]
    rw [hnil, List.append_nil]
    congr 1
    congr 1
    refine List.filter_congr fun o ho => ?_
    have hfalse : (clNew.any fun e => decide (e.client_id = o.client_id))
        = false :=
      List.any_eq_false.mpr fun n hn => by simp [hc n hn o ho]
    rw [List.any_append, hfalse, Bool.or_false]
  · unfold clientWarnings
    rw [List.filter_append]
    congr 1
    refine List.filter_eq_self.mpr fun n hn => ?_
    simp only [Bool.not_eq_true']
    refine List.any_eq_false.mpr fun o ho => ?_
    simp only [decide_eq_true_eq]
    intro h
    exact hc n hn o ho h.symm

/-- Witness for C3 at a concrete appended row. -/
theorem appended_rows_emit_no_ops_witness :
    reconcileForecasts [sampleDetailRow 1 100]
        ([sampleDetailRow 1 100] ++ [sampleDetailRow 9 500]) =
      reconcileForecasts [sampleDetailRow 1 100] [sampleDetailRow 1 100] :=
  (appended_rows_emit_no_ops [sampleDetailRow 1 100] [sampleDetailRow 1 100]
      [sampleDetailRow 9 500] [] [] [] (by decide) (by decide)).1

/-- Claim C4, counterexample: a batch whose one dispatched update fails
ends in exactly the same `No changes detected.` final message as a batch
with an empty update and delete set, refuting the claim that an
all-failures outcome is reported distinctly from the no-op outcome with
counts; the failure is reported only as a per-operation error naming id
1. -/
theorem all_failures_report_no_changes :
    finalMessage [ForecastOp.update 1 150] (fun _ => false) =
      BatchMessage.noChanges ∧
    finalMessage [] (fun _ => false) = BatchMessage.noChanges ∧
    failureIds [ForecastOp.update 1 150] (fun _ => false) = [1] := by decide

/-- Claim C4, amended: the final banner of the save handler reads
`No changes detected.` exactly when both success counters are zero —
whether because the computed operation set was empty or because every
dispatched operation failed; failed operations are reported individually
with their row id, but no failure count appears in the final banner, so
the two zero-success situations share the same summary message. -/
theorem batch_summary_characterization (ops : List ForecastOp)
    (outcome : ForecastOp → Bool) :
    (finalMessage ops outcome = BatchMessage.noChanges ↔
      successCounts ops outcome = (0, 0)) ∧
    ((∀ op ∈ ops, outcome op = false) →
      finalMessage ops outcome = BatchMessage.noChanges ∧
      failureIds ops outcome = ops.map ForecastOp.opId) ∧
    finalMessage [] outcome = BatchMessage.noChanges := by
  have hchar : finalMessage ops outcome = BatchMessage.noChanges ↔
      successCounts ops outcome = (0, 0) := by
    unfold finalMessage
    by_cases h : 0 < (successCounts ops outcome).1 ∨
        0 < (successCounts ops outcome).2
    · simp only [if_pos h]
      constructor
      · intro habs; cases habs
      · intro heq
        rw [Prod.ext_iff] at heq
        omega
    · simp only [if_neg h]
      push_neg at h
      constructor
      · intro _
        rw [Prod.ext_iff]
        omega
      · intro _; trivial
  refine ⟨hchar, fun hall => ⟨?_, ?_⟩, ?_⟩
  · refine hchar.mpr ?_
    unfold successCounts
    rw [Prod.mk.injEq]
    constructor
    · rw [List.filter_eq_nil_iff.mpr fun op hop => by simp [hall op hop]]
      rfl
    · rw [List.filter_eq_nil_iff.mpr fun op hop => by simp [hall op hop]]
      rfl
  · unfold failureIds
    rw [List.filter_eq_self.mpr fun op hop => by simp [hall op hop]]
  · rfl

/-- Witness for C4 (amended) at a concrete all-failed batch. -/
theorem batch_summary_characterization_witness :
    finalMessage [ForecastOp.update 1 150] (fun _ => false) =
      BatchMessage.noChanges ∧
    failureIds [ForecastOp.update 1 150] (fun _ => false) =
      [ForecastOp.update 1 150].map ForecastOp.opId :=
  (batch_summary_characterization [ForecastOp.update 1 150]
    (fun _ => false)).2.1 fun _ _ => rfl

/-- Claim C5, counterexample: `read_unit` signals a missing unit with
status 44 while `read_client` signals a missing client with 404, so
NotFound does not surface uniformly; and the invalid-reference signal of
`create_unit` (404) equals the NotFound signal of `read_vertical`, while
the duplicate-name signal of `create_vertical` (400) equals the
referenced-by-child signal of `delete_vertical`, so the error kinds are
not pairwise distinct by status. -/
theorem error_status_collisions :
    errorStatus Endpoint.readUnit ErrKind.notFound = some 44 ∧
    errorStatus Endpoint.readClient ErrKind.notFound = some 404 ∧
    errorStatus Endpoint.createUnit ErrKind.invalidReference =
      errorStatus Endpoint.readVertical ErrKind.notFound ∧
    errorStatus Endpoint.createVertical ErrKind.duplicate =
      errorStatus Endpoint.deleteVertical ErrKind.referencedByChild := by
  decide

/-- Claim C5, amended: across all endpoints of `fx_api.py`,
duplicate-name/duplicate-forecast and referenced-by-child errors always
map to status 400, invalid-reference errors always map to 404 (colliding
with NotFound), and NotFound maps to 404 everywhere except `read_unit` and
`delete_client`, which write the malformed status 44; clients can
therefore distinguish the error kinds only through the detail text, not
the status alone. -/
theorem error_status_by_kind :
    ∀ e : Endpoint,
      (errorStatus e ErrKind.duplicate = none ∨
        errorStatus e ErrKind.duplicate = some 400) ∧
      (errorStatus e ErrKind.referencedByChild = none ∨
        errorStatus e ErrKind.referencedByChild = some 400) ∧
      (errorStatus e ErrKind.invalidReference = none ∨
        errorStatus e ErrKind.invalidReference = some 404) ∧
      (errorStatus e ErrKind.notFound = none ∨
        errorStatus e ErrKind.notFound =
          some (if e = Endpoint.readUnit ∨ e = Endpoint.deleteClient
                then 44 else 404)) := by
  decide

/-- Claim C6: for every forecasts table, id and update request,
`update_forecast_amount` leaves `forecast_id`, `forecast_name`,
`client_id`, `business_unit_id`, `work_type_id` and `dt` of every row
unchanged and rewrites `forecast_amount` exactly on the rows matching the
id; the request type carries only an amount by construction, so no caller
can address any other field.  The returned row is the updated matching
row, or `none` (surfaced as 404) when the id does not exist. -/
theorem update_forecast_amount_frame (forecasts : List ForecastRow)
    (forecast_id : Nat) (u : ForecastUpdate) :
    List.Forall₂ (frameAgrees forecast_id u) forecasts
      (update_forecast_amount forecasts forecast_id u).2 ∧
    (update_forecast_amount forecasts forecast_id u).1 =
      (forecasts.find? fun r => decide (r.forecast_id = forecast_id)).map
        fun r => { r with forecast_amount := u.forecast_amount } := by
  refine ⟨?_, rfl⟩
  induction forecasts with
  | nil => exact List.Forall₂.nil
  | cons r rs ih =>
    refine List.Forall₂.cons ?_ ih
    by_cases h : r.forecast_id = forecast_id <;>
      simp [frameAgrees, h]

theorem createSucceeds_iff (db : Db) (f : ForecastCreate) :
    createSucceeds db f = true ↔
      ((∃ c ∈ db.clients, c.client_id = f.client_id) ∧
       (∃ u ∈ db.business_units,
          u.business_unit_id = f.business_unit_id) ∧
       (∃ w ∈ db.work_types, w.work_type_id = f.work_type_id) ∧
       ¬ ∃ r ∈ db.forecasts, r.business_unit_id = f.business_unit_id ∧
          r.client_id = f.client_id ∧ r.work_type_id = f.work_type_id ∧
          r.dt = f.dt) := by
  unfold createSucceeds create_forecast
  split_ifs with h1 h2 h3 h4
  · simp only [Bool.not_eq_true', List.any_eq_false, decide_eq_true_eq] at h1
    constructor
    · intro habs; cases habs
    · rintro ⟨⟨c, hc, hcid⟩, -, -, -⟩
      exact absurd hcid (h1 c hc)
  · simp only [Bool.not_eq_true', List.any_eq_false, decide_eq_true_eq] at h2
    constructor
    · intro habs; cases habs
    · rintro ⟨-, ⟨u, hu, huid⟩, -, -⟩
      exact absurd huid (h2 u hu)
  · simp only [Bool.not_eq_true', List.any_eq_false, decide_eq_true_eq] at h3
    constructor
    · intro habs; cases habs
    · rintro ⟨-, -, ⟨w, hw, hwid⟩, -⟩
      exact absurd hwid (h3 w hw)
  · simp only [List.any_eq_true, decide_eq_true_eq] at h4
    constructor
    · intro habs; cases habs
    · rintro ⟨-, -, -, hdup⟩
      exact absurd h4 hdup
  · simp only [Bool.not_eq_true, Bool.not_eq_false', List.any_eq_true,
      decide_eq_true_eq] at h1 h2 h3
    simp only [List.any_eq_true, decide_eq_true_eq] at h4
    constructor
    · intro _
      exact ⟨h1, h2, h3, h4⟩
    · intro _; rfl

/-- Claim C7, counterexample: a create request carrying amount -5 against
a store with valid references succeeds, and afterwards the forecasts
table contains a row with a negative amount — neither
`schemas.ForecastBase` (a plain `int` field) nor the `forecasts` table
definition (plain `INT NOT NULL`) rejects negative amounts, refuting the
claim that the store boundary raises a validation error for them. -/
theorem negative_amount_accepted :
    createSucceeds mismatchDb negativeCreate = true ∧
    negativeCreate.forecast_amount < 0 ∧
    ((create_forecast mismatchDb negativeCreate).2.forecasts.any fun r =>
      decide (r.forecast_amount < 0)) = true := by decide

/-- Claim C7, amended: the success or failure of `create_forecast` is
completely independent of the requested amount — replacing the amount of
any request by any other integer, including a negative one, never changes
whether the create succeeds — and a successful create persists the given
amount verbatim, as the concrete run with amount -5 shows.  Only the UI
input widgets impose a lower bound of 0. -/
theorem create_forecast_amount_unchecked :
    (∀ (db : Db) (f : ForecastCreate) (a : Int),
      createSucceeds db { f with forecast_amount := a } =
        createSucceeds db f) ∧
    (create_forecast mismatchDb negativeCreate).1 =
      Except.ok ⟨1, none, 1, 1, 1, ⟨2025, 11, 1⟩, -5⟩ := by
  refine ⟨?_, rfl⟩
  intro db f a
  rcases h : createSucceeds db f with _ | _
  · rw [Bool.eq_false_iff]
    intro habs
    rw [Bool.eq_false_iff] at h
    apply h
    rw [createSucceeds_iff] at habs ⊢
    exact habs
  · rw [createSucceeds_iff] at h ⊢
    exact h

/-- Claim C10: the store enforces no consistency between the
`business_unit_id` of a forecast and the owning business unit of its
client: on a concrete store whose only client (id 1) belongs to unit 1,
creating a forecast for client 1 with the existing but different unit 2
succeeds and persists the mismatched pair; in general a create succeeds
exactly when the three foreign keys each resolve independently and no
existing row shares the four-part `(business_unit_id, client_id,
work_type_id, dt)` key — no other cross-field constraint exists. -/
theorem forecast_unit_client_mismatch_allowed :
    createSucceeds mismatchDb mismatchCreate = true ∧
    ((create_forecast mismatchDb mismatchCreate).2.forecasts.any fun r =>
      decide (r.client_id = 1 ∧ r.business_unit_id = 2)) = true ∧
    (mismatchDb.clients.find? fun c => decide (c.client_id = 1)) =
      some ⟨1, "Acme Corp", some true, ⟨2023, 1, 1⟩, none, 1⟩ ∧
    ((mismatchDb.clients.find? fun c => decide (c.client_id = 1)).map
      fun c => c.business_unit_id) = some 1 ∧
    (∀ (db : Db) (f : ForecastCreate),
      createSucceeds db f = true ↔
        ((∃ c ∈ db.clients, c.client_id = f.client_id) ∧
         (∃ u ∈ db.business_units,
            u.business_unit_id = f.business_unit_id) ∧
         (∃ w ∈ db.work_types, w.work_type_id = f.work_type_id) ∧
         ¬ ∃ r ∈ db.forecasts, r.business_unit_id = f.business_unit_id ∧
            r.client_id = f.client_id ∧ r.work_type_id = f.work_type_id ∧
            r.dt = f.dt)) := by
  exact ⟨by decide, by decide, by decide, by decide, createSucceeds_iff⟩

/-- Claim C8: for every lookup entity kind (the payload type covers the
kind-specific columns) and every table whose rows do not yet carry the
name, the first create succeeds, a second create with the same name fails
with the duplicate-name error and returns the table unchanged, and the
first row is still readable with its original contents after the failed
attempt. -/
theorem duplicate_name_rejected_store_unchanged {α : Type}
    (t : LookupTable α) (nm : String) (p1 p2 : α)
    (hfresh : ∀ r ∈ t.rows, ¬ r.name = nm)
    (hid : ∀ r ∈ t.rows, ¬ r.id = t.nextId) :
    (createLookup t nm p1).1 = .ok ⟨t.nextId, nm, p1⟩ ∧
    createLookup (createLookup t nm p1).2 nm p2 =
      (.error DomainError.duplicateName, (createLookup t nm p1).2) ∧
    getLookup (createLookup t nm p1).2 t.nextId = some ⟨t.nextId, nm, p1⟩ := by
  have hany : (t.rows.any fun r => decide (r.name = nm)) = false :=
    List.any_eq_false.mpr fun r hr => by simp [hfresh r hr]
  have hfst : createLookup t nm p1 =
      (.ok ⟨t.nextId, nm, p1⟩,
       ⟨t.rows ++ [⟨t.nextId, nm, p1⟩], t.nextId + 1⟩) := by
    unfold createLookup
    rw [hany]
    rfl
  refine ⟨by rw [hfst], ?_, ?_⟩
  · rw [hfst]
    unfold createLookup
    have : ((t.rows ++ [(⟨t.nextId, nm, p1⟩ : LookupRow α)]).any fun r =>
        decide (r.name = nm)) = true := by
      rw [List.any_append, hany]
      simp
    rw [this]
    rfl
  · rw [hfst]
    unfold getLookup
    rw [List.find?_append, List.find?_eq_none.mpr fun r hr => by
      simp [hid r hr]]
    simp

/-- Witness for C8 at a concrete table over payload type Nat. -/
theorem duplicate_name_rejected_store_unchanged_witness :
    (createLookup (⟨[⟨1, "Technology", 0⟩], 2⟩ : LookupTable Nat)
        "Finance" 7).1 = .ok ⟨2, "Finance", 7⟩ :=
  (duplicate_name_rejected_store_unchanged
      (⟨[⟨1, "Technology", 0⟩], 2⟩ : LookupTable Nat) "Finance" 7 8
      (by decide) (by decide)).1

/-- Claim C9: running either reconciliation engine with the edited
snapshot equal to the original yields no operations, and the forecast save
handler then reports the `No changes detected.` message; the statement
quantifies over all snapshots, including client rows whose optional
`client_active` and `client_end_date` fields are absent, which compare
equal to themselves (the witness instantiates such a row). -/
theorem reconcile_identity_is_noop
    (original : List ForecastDetail) (clients : List ClientRow)
    (hids : (original.map ForecastDetail.forecast_id).Nodup)
    (hcids : (clients.map ClientRow.client_id).Nodup)
    (outcome : ForecastOp → Bool) :
    reconcileForecasts original original = [] ∧
    finalMessage (reconcileForecasts original original) outcome =
      BatchMessage.noChanges ∧
    reconcileClients clients clients = [] := by
  have hkeys := nodup_key_of_nodup_id hids
  have hfore : reconcileForecasts original original = [] := by
    rw [List.eq_nil_iff_forall_not_mem]
    intro op hop
    rcases List.mem_append.mp hop with h | h
    · obtain ⟨o, e, ho, he, hk, hne, -⟩ := mem_forecastUpdates.mp h
      have : e = o := List.inj_on_of_nodup_map hkeys he ho hk
      subst this
      exact hne rfl
    · obtain ⟨o, ho, hnone, -⟩ := mem_forecastDeletes.mp h
      exact hnone o ho rfl
  have hcl : reconcileClients clients clients = [] := by
    have hup : clientUpdates clients clients = [] := by
      refine List.filterMap_eq_nil_iff.mpr fun e he => ?_
      rcases hf : clients.find? fun o => decide (o.client_id = e.client_id)
        with _ | o
      · rw [hf]
      · have hmem := List.mem_of_find?_eq_some hf
        have hpred : o.client_id = e.client_id := by
          simpa using List.find?_some hf
        have hoe : o = e := List.inj_on_of_nodup_map hcids hmem he hpred
        subst hoe
        rw [hf]
        simp
    have hdel : clientDeletes clients clients = [] := by
      unfold clientDeletes
      rw [List.filter_eq_nil_iff.mpr fun o ho => ?_]
      · rfl
      · intro habs
        rw [Bool.not_eq_true', List.any_eq_false] at habs
        exact habs o ho (by simp)
    unfold reconcileClients
    rw [hup, hdel]
    rfl
  refine ⟨hfore, ?_, hcl⟩
  rw [hfore]
  rfl

/-- Witness for C9 at a client row with absent optional fields. -/
theorem reconcile_identity_is_noop_witness :
    reconcileClients [⟨1, "Acme Corp", none, ⟨2023, 1, 1⟩, none, 1⟩]
        [⟨1, "Acme Corp", none, ⟨2023, 1, 1⟩, none, 1⟩] = [] :=
  (reconcile_identity_is_noop []
      [⟨1, "Acme Corp", none, ⟨2023, 1, 1⟩, none, 1⟩]
      (by decide) (by decide) (fun _ => false)).2.2
